import Mathlib

/-!
# ScrollViewKeyboardManager (`src/index.js`)

A shallow embedding of the React Native component `ScrollViewKeyboardManager`.

* Instance fields and component state are the record `Manager`; every method is
  a function on it that also returns the calls it makes to its collaborators
  (`Keyboard`, `UIManager`, the scroll view) as a list of `Effect`s.
* Asynchronous callbacks are data: a request effect carries the variables its
  closure captured, and a separate function holds the body of each closure, so
  that a callback can be run in any later state of the component.
* JavaScript numbers (pixel values) are modelled as `Int`; native view tags are
  `Nat`; a reference that may be `undefined` or `null` is a `Nullable`.
* Dereferencing `undefined`/`null` raises `Fault.typeError`.
-/

namespace ScrollViewKeyboardManager

/-! ## JavaScript values -/

/-- A JavaScript value that is `undefined`, `null`, or a value of type `α`. -/
inductive Nullable (α : Type) where
  | undefined : Nullable α
  | null : Nullable α
  | value (a : α) : Nullable α
  deriving DecidableEq

/-- Truthiness of an object reference: every object is truthy, `undefined` and
`null` are falsy. -/
def Nullable.truthy {α : Type} : Nullable α → Bool
  | .value _ => true
  | _ => false

/-- The expression `a && f(a)` for an object reference `a`: the falsy `a`
itself when `a` is `undefined`/`null`, otherwise the value of `f a`. -/
def Nullable.andThen {α β : Type} (a : Nullable α) (f : α → Nullable β) : Nullable β :=
  match a with
  | .undefined => .undefined
  | .null => .null
  | .value x => f x

/-- Truthiness of a nullable number (a native view tag): `undefined`, `null`
and `0` are falsy. -/
def tagTruthy : Nullable Nat → Bool
  | .value n => n != 0
  | _ => false

/-- What a JavaScript exception or an exhausted run is reported as. -/
inductive Fault where
  /-- A `TypeError`: a property was read from `undefined` or `null`. -/
  | typeError : Fault
  /-- The event loop model ran out of fuel (not a JavaScript error). -/
  | outOfFuel : Fault
  deriving DecidableEq

/-! ## Module constants (lines 12-20) -/

def DEFAULT_ADDITIONAL_SCROLL : Int := 20

/-- The constant `IS_IOS = Platform.OS === "ios"`; the platform name is a parameter. -/
def IS_IOS (os : String) : Bool := os == "ios"

/-- The constant `IS_ANDROID = Platform.OS === "android"`. -/
def IS_ANDROID (os : String) : Bool := os == "android"

namespace ANDROID_SOFT_INPUT_MODES
def adjustResize : String := "adjustResize"
def adjustPan : String := "adjustPan"
def adjustNothing : String := "adjustNothing"
end ANDROID_SOFT_INPUT_MODES

/-! ## Data -/

/-- The props `additionalScrollOffset` and `androidSoftInputMode` (the `render`
delegate is a collaborator and is not part of the record). -/
structure Props where
  additionalScrollOffset : Int
  androidSoftInputMode : String
  deriving DecidableEq

/-- The `static defaultProps` (lines 31-34). -/
def defaultProps : Props :=
  { additionalScrollOffset := DEFAULT_ADDITIONAL_SCROLL
    androidSoftInputMode := ANDROID_SOFT_INPUT_MODES.adjustResize }

/-- The `frames.endCoordinates` of a keyboard event. -/
structure EndCoordinates where
  height : Int
  screenY : Int
  deriving DecidableEq

/-- Payload of a keyboard show event. -/
structure Frames where
  endCoordinates : EndCoordinates
  deriving DecidableEq

structure Size where
  width : Int
  height : Int
  deriving DecidableEq

structure Point where
  x : Int
  y : Int
  deriving DecidableEq

/-- The `event.nativeEvent` of a scroll notification. -/
structure NativeScrollEvent where
  layoutMeasurement : Nullable Size
  contentOffset : Nullable Point
  contentSize : Nullable Size
  deriving DecidableEq

/-- The arguments `(x, y, width, height)` of a `measureInWindow` callback. -/
structure Rect where
  x : Int
  y : Int
  width : Int
  height : Int
  deriving DecidableEq

/-- The object returned by `getScrollResponder()`, described by what
`getInnerViewNode()` returns on it. -/
structure Responder where
  innerViewNode : Nullable Nat
  deriving DecidableEq

/-- The scroll view held in `this.ref`, described by what
`ReactNative.findNodeHandle(this.ref)` and `this.ref.getScrollResponder()`
return. -/
structure Container where
  nodeHandle : Nullable Nat
  scrollResponder : Nullable Responder
  deriving DecidableEq

/-- The subscription object returned by `Keyboard.addListener`. -/
structure Subscription where
  id : Nat
  deriving DecidableEq

/-- The bound methods of the component that are handed to collaborators. -/
inductive Method where
  | onKeyboardShow
  | onKeyboardHide
  | storeRef
  | onScroll
  deriving DecidableEq

/-- Variables captured by the closure passed to `UIManager.viewIsDescendantOf`
(lines 74-78). -/
structure DescendantClosure where
  focusedField : Nat
  keyboardHeight : Int
  keyboardTopY : Int
  deriving DecidableEq

/-- The two closures passed to `UIManager.measureInWindow`, with the variables
each captures. -/
inductive MeasureClosure where
  /-- Lines 114-123, in `adjustScrollToField`. -/
  | fieldMeasured (field : Nat) (keyboardHeight keyboardTopY : Int)
  /-- Lines 152-160, in `adjustScrollIos`. -/
  | scrollViewMeasured (responder : Responder) (fieldNode : Nat)
      (additionalScrollOffset : Int)
  deriving DecidableEq

/-- A call the component makes to one of its collaborators. -/
inductive Effect where
  | addListener (eventType : String) (listener : Method)
  | remove (subscription : Subscription)
  /-- The second argument of `setState` in `onKeyboardHide` (lines 93-108). -/
  | setStateCallback
  | viewIsDescendantOf (field scrollViewNode : Nat) (callback : DescendantClosure)
  | measureInWindow (node : Nat) (callback : MeasureClosure)
  | scrollResponderScrollNativeHandleToKeyboard (responder : Responder)
      (fieldNode : Nat) (additionalOffset : Int) (preventNegativeScrolling : Bool)
  | scrollToEnd (target : Container) (animated : Bool)
  deriving DecidableEq

/-- The scroll commands among the effects. -/
def Effect.isScrollCommand : Effect → Bool
  | .scrollResponderScrollNativeHandleToKeyboard _ _ _ _ => true
  | .scrollToEnd _ _ => true
  | _ => false

/-- Component state (`this.state.keyboardHeight`) and instance fields. -/
structure Manager where
  keyboardHeight : Int
  showListener : Nullable Subscription
  hideListener : Nullable Subscription
  ref : Nullable Container
  layoutMeasurement : Nullable Size
  contentOffset : Nullable Point
  contentSize : Nullable Size
  deriving DecidableEq

/-- A freshly constructed component: `state = { keyboardHeight: 0 }` (lines
38-40), no instance field assigned yet. -/
def Manager.initial : Manager :=
  { keyboardHeight := 0
    showListener := .undefined
    hideListener := .undefined
    ref := .undefined
    layoutMeasurement := .undefined
    contentOffset := .undefined
    contentSize := .undefined }

/-! ## Lifecycle (lines 44-57) -/

/-- Method `componentDidMount`; `showSubscription` and `hideSubscription` are the
objects the two `Keyboard.addListener` calls return. -/
def componentDidMount (os : String) (showSubscription hideSubscription : Subscription)
    (m : Manager) : Manager × List Effect :=
  let showEvent := if IS_IOS os then "keyboardWillShow" else "keyboardDidShow"
  let hideEvent := if IS_IOS os then "keyboardWillHide" else "keyboardDidHide"
  ({ m with showListener := .value showSubscription
            hideListener := .value hideSubscription },
   [.addListener showEvent .onKeyboardShow, .addListener hideEvent .onKeyboardHide])

/-- The statement `listener && listener.remove()`. -/
def removeIfHeld : Nullable Subscription → List Effect
  | .value s => [.remove s]
  | _ => []

/-- Method `componentWillUnmount`. -/
def componentWillUnmount (m : Manager) : Manager × List Effect :=
  ({ m with showListener := .null, hideListener := .null },
   removeIfHeld m.showListener ++ removeIfHeld m.hideListener)

/-! ## Listeners and scrolling logic (lines 61-206) -/

/-- The call `ReactNative.findNodeHandle(this.ref)`: `null` for a missing component. -/
def findNodeHandle (ref : Nullable Container) : Nullable Nat :=
  match ref with
  | .value c => c.nodeHandle
  | _ => .null

/-- The expression `this.ref && this.ref.getScrollResponder()`. -/
def getResponder (m : Manager) : Nullable Responder :=
  m.ref.andThen fun c => c.scrollResponder

/-- The expression `responder && responder.getInnerViewNode()` for the responder of the
component (lines 65-66). -/
def getInnerViewNode (m : Manager) : Nullable Nat :=
  (getResponder m).andThen fun r => r.innerViewNode

/-- Method `adjustScrollToField` (lines 113-124): requests the measurement of the
field. -/
def adjustScrollToField (field : Nat) (keyboardHeight keyboardTopY : Int) : List Effect :=
  [.measureInWindow field (.fieldMeasured field keyboardHeight keyboardTopY)]

/-- Method `onKeyboardShow` (lines 61-79); `focusedField` is what
`TextInput.State.currentlyFocusedField()` returns. -/
def onKeyboardShow (focusedField : Nullable Nat) (frames : Frames) (m : Manager) :
    Manager × List Effect :=
  let keyboardHeight := frames.endCoordinates.height
  let keyboardTopY := frames.endCoordinates.screenY
  let scrollViewNode := getInnerViewNode m
  let m1 := { m with keyboardHeight := keyboardHeight }
  if !tagTruthy focusedField || !tagTruthy scrollViewNode then
    (m1, [])
  else
    match focusedField, scrollViewNode with
    | .value field, .value node =>
      (m1, [.viewIsDescendantOf field node
              { focusedField := field, keyboardHeight := keyboardHeight,
                keyboardTopY := keyboardTopY }])
    | _, _ => (m1, [])

/-- Body of the closure passed to `viewIsDescendantOf` (lines 74-78). -/
def isDescendantCallback (c : DescendantClosure) (isDescendant : Bool) : List Effect :=
  if isDescendant then
    adjustScrollToField c.focusedField c.keyboardHeight c.keyboardTopY
  else
    []

/-- Method `onKeyboardHide` (lines 92-93): the state update, and the scheduling of the
callback. -/
def onKeyboardHide (m : Manager) : Manager × List Effect :=
  ({ m with keyboardHeight := 0 }, [.setStateCallback])

/-- The call `this.ref.scrollToEnd` with `animated: true` (line 105): reading `scrollToEnd`
from a missing `this.ref` throws. -/
def scrollToEnd (ref : Nullable Container) (animated : Bool) : Except Fault (List Effect) :=
  match ref with
  | .value c => .ok [.scrollToEnd c animated]
  | _ => .error .typeError

/-- Body of the `setState` callback of `onKeyboardHide` (lines 93-108). -/
def hideStateCallback (os : String) (m : Manager) : Except Fault (List Effect) :=
  if IS_IOS os then
    match m.layoutMeasurement, m.contentOffset, m.contentSize with
    | .value layoutMeasurement, .value contentOffset, .value contentSize =>
      let scrollBottomY := layoutMeasurement.height + contentOffset.y
      let scrollMaxY := contentSize.height
      let shouldScrollToEnd := decide (scrollBottomY > scrollMaxY)
      if shouldScrollToEnd then
        scrollToEnd m.ref true
      else
        .ok []
    | _, _, _ => .ok []
  else
    .ok []

/-- Method `adjustScrollIos` (lines 136-162). `ReactNative.findNodeHandle(field)` is
`field` itself, the field being a native tag already. -/
def adjustScrollIos (props : Props) (m : Manager) (field : Nat)
    (fieldBottomY keyboardTopY : Int) : List Effect :=
  let additionalScrollOffset := props.additionalScrollOffset
  let fieldNode := field
  let scrollViewNode := findNodeHandle m.ref
  let responder := getResponder m
  let adjustedFieldBottomY := fieldBottomY + additionalScrollOffset
  let shouldScrollUp := decide (adjustedFieldBottomY > keyboardTopY)
  if !tagTruthy scrollViewNode then
    []
  else if !responder.truthy then
    []
  else if shouldScrollUp then
    match scrollViewNode, responder with
    | .value node, .value r =>
      [.measureInWindow node (.scrollViewMeasured r fieldNode additionalScrollOffset)]
    | _, _ => []
  else
    []

/-- Method `adjustScrollAndroid` (lines 167-192): the body is a comment. -/
def adjustScrollAndroid (_fieldBottomY _keyboardTopY _keyboardHeight : Int) : List Effect :=
  []

/-- Body of the closure passed to `measureInWindow` by `adjustScrollToField`
(lines 114-123). -/
def fieldMeasuredCallback (os : String) (props : Props) (m : Manager) (field : Nat)
    (keyboardHeight keyboardTopY : Int) (rect : Rect) : List Effect :=
  let fieldBottomY := rect.y + rect.height
  (if IS_IOS os then adjustScrollIos props m field fieldBottomY keyboardTopY else []) ++
  (if IS_ANDROID os then adjustScrollAndroid fieldBottomY keyboardTopY keyboardHeight else [])

/-- Body of the closure passed to `measureInWindow` by `adjustScrollIos` (lines
152-160); only the second callback argument, the top offset, is used. -/
def scrollViewMeasuredCallback (responder : Responder) (fieldNode : Nat)
    (additionalScrollOffset : Int) (rect : Rect) : List Effect :=
  let scrollViewTopOffset := rect.y
  let additionalOffset := additionalScrollOffset + scrollViewTopOffset
  let preventNegativeScrolling := true
  [.scrollResponderScrollNativeHandleToKeyboard responder fieldNode additionalOffset
     preventNegativeScrolling]

/-- Method `storeRef` (lines 196-198). -/
def storeRef (ref : Nullable Container) (m : Manager) : Manager :=
  { m with ref := ref }

/-- Method `onScroll` (lines 200-206). -/
def onScroll (nativeEvent : NativeScrollEvent) (m : Manager) : Manager :=
  { m with layoutMeasurement := nativeEvent.layoutMeasurement
           contentOffset := nativeEvent.contentOffset
           contentSize := nativeEvent.contentSize }

/-! ## Render (lines 210-232) -/

structure Style where
  marginBottom : Int
  deriving DecidableEq

structure ContentInset where
  bottom : Int
  deriving DecidableEq

/-- The object handed to the `render` delegate. -/
structure ScrollViewProps where
  ref : Method
  scrollViewStyle : Nullable Style
  onScroll : Method
  automaticallyAdjustContentInsets : Bool
  contentInset : ContentInset
  scrollEventThrottle : Int
  deriving DecidableEq

/-- The value of `androidStyle` in `render` (lines 214-222). -/
def androidStyle (os : String) (props : Props) (m : Manager) : Nullable Style :=
  let androidSoftInputMode := props.androidSoftInputMode
  let keyboardHeight := m.keyboardHeight
  if IS_ANDROID os then
    let shouldAjustMargin :=
      androidSoftInputMode == ANDROID_SOFT_INPUT_MODES.adjustNothing ||
      androidSoftInputMode == ANDROID_SOFT_INPUT_MODES.adjustPan
    if shouldAjustMargin then
      .value { marginBottom := keyboardHeight }
    else
      .undefined
  else
    .undefined

/-- The argument `render` passes to the delegate (lines 224-231). -/
def render (os : String) (props : Props) (m : Manager) : ScrollViewProps :=
  { ref := .storeRef
    scrollViewStyle := androidStyle os props m
    onScroll := .onScroll
    automaticallyAdjustContentInsets := false
    contentInset := { bottom := m.keyboardHeight }
    scrollEventThrottle := 100 }

/-! ## The host: notifications and the resolution of callbacks -/

/-- The answers of the view-measurement service (`UIManager`). -/
structure Host where
  viewIsDescendantOf : Nat → Nat → Bool
  measureInWindow : Nat → Rect

/-- The host resolves a request: it runs the callback the effect carries with
its answer, in the component state `m` current at that time. Effects that carry
no callback spawn nothing. -/
def deliver (os : String) (props : Props) (host : Host) (m : Manager) :
    Effect → Except Fault (List Effect)
  | .setStateCallback => hideStateCallback os m
  | .viewIsDescendantOf field node c =>
    .ok (isDescendantCallback c (host.viewIsDescendantOf field node))
  | .measureInWindow node (.fieldMeasured field keyboardHeight keyboardTopY) =>
    .ok (fieldMeasuredCallback os props m field keyboardHeight keyboardTopY
      (host.measureInWindow node))
  | .measureInWindow node (.scrollViewMeasured responder fieldNode additionalScrollOffset) =>
    .ok (scrollViewMeasuredCallback responder fieldNode additionalScrollOffset
      (host.measureInWindow node))
  | _ => .ok []

/-- The event loop: effects are taken from the queue in order, each is logged,
and the effects its callback issues join the end of the queue. The result is the
log of every effect issued; a callback that throws ends the run with its error.
No callback assigns to the state or to an instance field, so `m` is constant
over a run. -/
def eventLoop (os : String) (props : Props) (host : Host) (m : Manager) :
    Nat → List Effect → Except Fault (List Effect)
  | _, [] => .ok []
  | 0, _ :: _ => .error .outOfFuel
  | fuel + 1, e :: queue =>
    match deliver os props host m e with
    | .error err => .error err
    | .ok spawned =>
      match eventLoop os props host m fuel (queue ++ spawned) with
      | .error err => .error err
      | .ok log => .ok (e :: log)

/-- A keyboard show notification and everything that follows from it. -/
def keyboardShow (os : String) (props : Props) (host : Host) (fuel : Nat)
    (focusedField : Nullable Nat) (frames : Frames) (m : Manager) :
    Manager × Except Fault (List Effect) :=
  let r := onKeyboardShow focusedField frames m
  (r.1, eventLoop os props host r.1 fuel r.2)

/-- A keyboard hide notification and everything that follows from it. -/
def keyboardHide (os : String) (props : Props) (host : Host) (fuel : Nat) (m : Manager) :
    Manager × Except Fault (List Effect) :=
  let r := onKeyboardHide m
  (r.1, eventLoop os props host r.1 fuel r.2)

/-- The scroll commands of a run; none when the run did not complete. -/
def scrollCommands : Except Fault (List Effect) → List Effect
  | .ok log => log.filter Effect.isScrollCommand
  | .error _ => []

/-- The notifications the component receives while mounted. -/
inductive Notification where
  | keyboardShow (focusedField : Nullable Nat) (frames : Frames)
  | keyboardHide
  | scroll (nativeEvent : NativeScrollEvent)
  deriving DecidableEq

/-- The component after a notification. Callbacks return effects only, so the
handlers alone decide the next state. -/
def notify (m : Manager) : Notification → Manager
  | .keyboardShow focusedField frames => (onKeyboardShow focusedField frames m).1
  | .keyboardHide => (onKeyboardHide m).1
  | .scroll nativeEvent => onScroll nativeEvent m

/-- Whether a notification is a keyboard event. -/
def Notification.isKeyboardEvent : Notification → Bool
  | .scroll _ => false
  | _ => true

/-- The keyboard height the specification prescribes after a sequence of
notifications: the height of the last show event when the last keyboard event
is a show, `0` when it is a hide or when there is none. -/
def expectedKeyboardHeight (ns : List Notification) : Int :=
  match ns.reverse.find? Notification.isKeyboardEvent with
  | some (.keyboardShow _ frames) => frames.endCoordinates.height
  | _ => 0

/-! ## Basic facts -/

theorem IS_IOS_android : IS_IOS "android" = false := by decide

theorem eventLoop_nil (os : String) (props : Props) (host : Host) (m : Manager) (fuel : Nat) :
    eventLoop os props host m fuel [] = .ok [] := by
  cases fuel <;> rfl

theorem eventLoop_cons (os : String) (props : Props) (host : Host) (m : Manager) (fuel : Nat)
    (e : Effect) (queue : List Effect) :
    eventLoop os props host m (fuel + 1) (e :: queue) =
      match deliver os props host m e with
      | .error err => .error err
      | .ok spawned =>
        match eventLoop os props host m fuel (queue ++ spawned) with
        | .error err => .error err
        | .ok log => .ok (e :: log) := rfl

/-- The state after `onKeyboardShow` is the old one with the new height. -/
theorem onKeyboardShow_state (focusedField : Nullable Nat) (frames : Frames) (m : Manager) :
    (onKeyboardShow focusedField frames m).1 =
      { m with keyboardHeight := frames.endCoordinates.height } := by
  unfold onKeyboardShow
  simp only
  split
  · rfl
  · split <;> rfl

/-- No handler touches the listener handles. -/
theorem notify_listeners (m : Manager) (n : Notification) :
    (notify m n).showListener = m.showListener ∧ (notify m n).hideListener = m.hideListener := by
  cases n
  · simp [notify, onKeyboardShow_state]
  · simp [notify, onKeyboardHide]
  · simp [notify, onScroll]

theorem foldl_notify_listeners (ns : List Notification) (m : Manager) :
    (ns.foldl notify m).showListener = m.showListener ∧
      (ns.foldl notify m).hideListener = m.hideListener := by
  induction ns generalizing m with
  | nil => simp
  | cons n ns ih =>
    rw [List.foldl_cons]
    exact ⟨(ih (notify m n)).1.trans (notify_listeners m n).1,
      (ih (notify m n)).2.trans (notify_listeners m n).2⟩

/-- The height after a run of notifications from any state: decided by the
last keyboard event, and the starting height when there is none. -/
theorem foldl_notify_keyboardHeight (ns : List Notification) (m : Manager) :
    (ns.foldl notify m).keyboardHeight =
      match ns.reverse.find? Notification.isKeyboardEvent with
      | some (.keyboardShow _ frames) => frames.endCoordinates.height
      | some .keyboardHide => 0
      | _ => m.keyboardHeight := by
  induction ns using List.reverseRecOn with
  | nil => simp
  | append_singleton ns n ih =>
    rw [List.foldl_append, List.reverse_append]
    cases n with
    | keyboardShow f fr =>
      simp [notify, onKeyboardShow_state, Notification.isKeyboardEvent]
    | keyboardHide =>
      simp [notify, onKeyboardHide, Notification.isKeyboardEvent]
    | scroll ev =>
      simp only [List.foldl_cons, List.foldl_nil, notify, onScroll, List.reverse_cons,
        List.reverse_nil, List.nil_append, List.singleton_append, List.find?_cons,
        Notification.isKeyboardEvent]
      exact ih

/-- The effects of `onKeyboardShow` when the guard of line 70 returns. -/
theorem onKeyboardShow_effects_of_guard (focusedField : Nullable Nat) (frames : Frames)
    (m : Manager)
    (h : tagTruthy focusedField = false ∨ tagTruthy (getInnerViewNode m) = false) :
    (onKeyboardShow focusedField frames m).2 = [] := by
  unfold onKeyboardShow
  simp only
  rcases h with h | h <;> simp [h]

/-- The effects of `onKeyboardShow` when the guard of line 70 is passed. -/
theorem onKeyboardShow_effects_of_pass (field node : Nat) (frames : Frames) (m : Manager)
    (hf : field ≠ 0) (hnode : getInnerViewNode m = .value node) (hn : node ≠ 0) :
    (onKeyboardShow (.value field) frames m).2 =
      [.viewIsDescendantOf field node
        { focusedField := field, keyboardHeight := frames.endCoordinates.height,
          keyboardTopY := frames.endCoordinates.screenY }] := by
  unfold onKeyboardShow
  simp [hnode, tagTruthy, hf, hn]

/-- A truthy tag is a non-zero number. -/
theorem tagTruthy_iff (t : Nullable Nat) :
    tagTruthy t = true ↔ ∃ n, t = .value n ∧ n ≠ 0 := by
  cases t <;> simp [tagTruthy]

/-- The inner view node is read through the container and its responder. -/
theorem getInnerViewNode_eq_value (m : Manager) (node : Nat) :
    getInnerViewNode m = .value node ↔
      ∃ c r, m.ref = .value c ∧ c.scrollResponder = .value r ∧
        r.innerViewNode = .value node := by
  unfold getInnerViewNode getResponder
  cases hm : m.ref with
  | undefined => simp [Nullable.andThen]
  | null => simp [Nullable.andThen]
  | value c =>
    cases hc : c.scrollResponder with
    | undefined => simp [Nullable.andThen, hc]
    | null => simp [Nullable.andThen, hc]
    | value r => simp [Nullable.andThen, hc]

/-- Every show event either stops at the guard of line 70 or issues exactly one
containment check. -/
theorem onKeyboardShow_effects_cases (focusedField : Nullable Nat) (frames : Frames)
    (m : Manager) :
    ((tagTruthy focusedField = false ∨ tagTruthy (getInnerViewNode m) = false) ∧
        (onKeyboardShow focusedField frames m).2 = []) ∨
      ∃ field node, focusedField = .value field ∧ field ≠ 0 ∧
        getInnerViewNode m = .value node ∧ node ≠ 0 ∧
        (onKeyboardShow focusedField frames m).2 =
          [.viewIsDescendantOf field node
            { focusedField := field, keyboardHeight := frames.endCoordinates.height,
              keyboardTopY := frames.endCoordinates.screenY }] := by
  cases hf : tagTruthy focusedField with
  | false => exact Or.inl ⟨Or.inl rfl, onKeyboardShow_effects_of_guard _ _ _ (Or.inl hf)⟩
  | true =>
    cases hn : tagTruthy (getInnerViewNode m) with
    | false => exact Or.inl ⟨Or.inr rfl, onKeyboardShow_effects_of_guard _ _ _ (Or.inr hn)⟩
    | true =>
      obtain ⟨field, hfield, hfield0⟩ := (tagTruthy_iff _).1 hf
      obtain ⟨node, hnode, hnode0⟩ := (tagTruthy_iff _).1 hn
      refine Or.inr ⟨field, node, hfield, hfield0, hnode, hnode0, ?_⟩
      rw [hfield]
      exact onKeyboardShow_effects_of_pass field node frames m hfield0 hnode hnode0

/-- A show event stopped by the guard of line 70 issues nothing, with any fuel. -/
theorem keyboardShow_log_of_guard (os : String) (props : Props) (host : Host) (fuel : Nat)
    (focusedField : Nullable Nat) (frames : Frames) (m : Manager)
    (h : tagTruthy focusedField = false ∨ tagTruthy (getInnerViewNode m) = false) :
    (keyboardShow os props host fuel focusedField frames m).2 = .ok [] := by
  unfold keyboardShow
  simp only [onKeyboardShow_effects_of_guard focusedField frames m h, eventLoop_nil]

/-- The log of a show event that passes the guard of line 70, when the container
has a native tag at the time its field is measured. -/
theorem keyboardShow_log_of_pass (os : String) (props : Props) (host : Host) (n : Nat)
    (frames : Frames) (m : Manager) (field inner node : Nat) (c : Container) (r : Responder)
    (hfield : field ≠ 0) (href : m.ref = .value c) (hresp : c.scrollResponder = .value r)
    (hinner : r.innerViewNode = .value inner) (hinner0 : inner ≠ 0)
    (hnode : c.nodeHandle = .value node) (hnode0 : node ≠ 0) :
    (keyboardShow os props host (n + 4) (.value field) frames m).2 =
      .ok (.viewIsDescendantOf field inner
            { focusedField := field, keyboardHeight := frames.endCoordinates.height,
              keyboardTopY := frames.endCoordinates.screenY } ::
        if host.viewIsDescendantOf field inner = true then
          .measureInWindow field
              (.fieldMeasured field frames.endCoordinates.height
                frames.endCoordinates.screenY) ::
            if IS_IOS os = true ∧
                (host.measureInWindow field).y + (host.measureInWindow field).height +
                  props.additionalScrollOffset > frames.endCoordinates.screenY then
              [.measureInWindow node
                 (.scrollViewMeasured r field props.additionalScrollOffset),
               .scrollResponderScrollNativeHandleToKeyboard r field
                 (props.additionalScrollOffset + (host.measureInWindow node).y) true]
            else []
        else []) := by
  have hin : getInnerViewNode m = .value inner :=
    (getInnerViewNode_eq_value m inner).2 ⟨c, r, href, hresp, hinner⟩
  unfold keyboardShow
  simp only [onKeyboardShow_effects_of_pass field inner frames m hfield hin hinner0,
    onKeyboardShow_state]
  cases hdesc : host.viewIsDescendantOf field inner
  · simp [eventLoop_cons, eventLoop_nil, deliver, isDescendantCallback, hdesc]
  · cases hios : IS_IOS os
    · simp [eventLoop_cons, eventLoop_nil, deliver, isDescendantCallback, hdesc,
        adjustScrollToField, fieldMeasuredCallback, hios, adjustScrollAndroid]
    · by_cases hcmp : (host.measureInWindow field).y + (host.measureInWindow field).height +
          props.additionalScrollOffset > frames.endCoordinates.screenY
      · simp [eventLoop_cons, eventLoop_nil, deliver, isDescendantCallback, hdesc,
          adjustScrollToField, fieldMeasuredCallback, hios, adjustScrollAndroid,
          adjustScrollIos, findNodeHandle, getResponder, href, hresp, hnode, Nullable.andThen,
          tagTruthy, Nullable.truthy, hnode0, hcmp, scrollViewMeasuredCallback]
      · simp [eventLoop_cons, eventLoop_nil, deliver, isDescendantCallback, hdesc,
          adjustScrollToField, fieldMeasuredCallback, hios, adjustScrollAndroid,
          adjustScrollIos, findNodeHandle, getResponder, href, hresp, hnode, Nullable.andThen,
          tagTruthy, Nullable.truthy, hnode0, hcmp]

/-- The log of a show event that passes the guard of line 70, when the container
has no native tag at the time its field is measured. -/
theorem keyboardShow_log_of_pass_no_tag (os : String) (props : Props) (host : Host) (n : Nat)
    (frames : Frames) (m : Manager) (field inner : Nat) (c : Container) (r : Responder)
    (hfield : field ≠ 0) (href : m.ref = .value c) (hresp : c.scrollResponder = .value r)
    (hinner : r.innerViewNode = .value inner) (hinner0 : inner ≠ 0)
    (hnode : tagTruthy c.nodeHandle = false) :
    (keyboardShow os props host (n + 4) (.value field) frames m).2 =
      .ok (.viewIsDescendantOf field inner
            { focusedField := field, keyboardHeight := frames.endCoordinates.height,
              keyboardTopY := frames.endCoordinates.screenY } ::
        if host.viewIsDescendantOf field inner = true then
          [.measureInWindow field
              (.fieldMeasured field frames.endCoordinates.height
                frames.endCoordinates.screenY)]
        else []) := by
  have hin : getInnerViewNode m = .value inner :=
    (getInnerViewNode_eq_value m inner).2 ⟨c, r, href, hresp, hinner⟩
  unfold keyboardShow
  simp only [onKeyboardShow_effects_of_pass field inner frames m hfield hin hinner0,
    onKeyboardShow_state]
  cases hdesc : host.viewIsDescendantOf field inner
  · simp [eventLoop_cons, eventLoop_nil, deliver, isDescendantCallback, hdesc]
  · cases hios : IS_IOS os
    · simp [eventLoop_cons, eventLoop_nil, deliver, isDescendantCallback, hdesc,
        adjustScrollToField, fieldMeasuredCallback, hios, adjustScrollAndroid]
    · simp [eventLoop_cons, eventLoop_nil, deliver, isDescendantCallback, hdesc,
        adjustScrollToField, fieldMeasuredCallback, hios, adjustScrollAndroid,
        adjustScrollIos, findNodeHandle, href, hnode]

/-- Without a container there is no inner view node. -/
theorem getInnerViewNode_of_no_ref (m : Manager) (h : m.ref.truthy = false) :
    tagTruthy (getInnerViewNode m) = false := by
  unfold getInnerViewNode getResponder
  cases hm : m.ref with
  | undefined => rfl
  | null => rfl
  | value c => simp [hm, Nullable.truthy] at h

/-- Off iOS a show event completes without any scroll command. -/
theorem keyboardShow_no_scroll_of_not_ios (os : String) (hos : IS_IOS os = false)
    (props : Props) (host : Host) (n : Nat) (focusedField : Nullable Nat) (frames : Frames)
    (m : Manager) :
    ∃ log, (keyboardShow os props host (n + 4) focusedField frames m).2 = .ok log ∧
      log.filter Effect.isScrollCommand = [] := by
  rcases onKeyboardShow_effects_cases focusedField frames m with ⟨hguard, _⟩ |
    ⟨field, inner, hfocus, hfield, hin, hinner0, _⟩
  · exact ⟨[], keyboardShow_log_of_guard os props host (n + 4) focusedField frames m hguard,
      rfl⟩
  · obtain ⟨c, r, href, hresp, hinner⟩ := (getInnerViewNode_eq_value m inner).1 hin
    rw [hfocus]
    cases htag : tagTruthy c.nodeHandle with
    | false =>
      refine ⟨_, keyboardShow_log_of_pass_no_tag os props host n frames m field inner c r
        hfield href hresp hinner hinner0 htag, ?_⟩
      cases hdesc : host.viewIsDescendantOf field inner <;> simp [Effect.isScrollCommand]
    | true =>
      obtain ⟨node, hnode, hnode0⟩ := (tagTruthy_iff _).1 htag
      refine ⟨_, keyboardShow_log_of_pass os props host n frames m field inner node c r
        hfield href hresp hinner hinner0 hnode hnode0, ?_⟩
      cases hdesc : host.viewIsDescendantOf field inner <;>
        simp [Effect.isScrollCommand, hos]

/-- With four units of fuel every show event runs to completion, on every
platform. -/
theorem keyboardShow_completes (os : String) (props : Props) (host : Host) (n : Nat)
    (focusedField : Nullable Nat) (frames : Frames) (m : Manager) :
    ∃ log, (keyboardShow os props host (n + 4) focusedField frames m).2 = .ok log := by
  rcases onKeyboardShow_effects_cases focusedField frames m with ⟨hguard, _⟩ |
    ⟨field, inner, hfocus, hfield, hin, hinner0, _⟩
  · exact ⟨[], keyboardShow_log_of_guard os props host (n + 4) focusedField frames m hguard⟩
  · obtain ⟨c, r, href, hresp, hinner⟩ := (getInnerViewNode_eq_value m inner).1 hin
    rw [hfocus]
    cases htag : tagTruthy c.nodeHandle with
    | false =>
      exact ⟨_, keyboardShow_log_of_pass_no_tag os props host n frames m field inner c r
        hfield href hresp hinner hinner0 htag⟩
    | true =>
      obtain ⟨node, hnode, hnode0⟩ := (tagTruthy_iff _).1 htag
      exact ⟨_, keyboardShow_log_of_pass os props host n frames m field inner node c r
        hfield href hresp hinner hinner0 hnode hnode0⟩

/-- The containment callback and the field-measurement callback issue no scroll
command and request no container measurement once the container reference is
missing. -/
theorem callbacks_without_container (os : String) (props : Props) (m : Manager)
    (href : m.ref.truthy = false) (cl : DescendantClosure) (isDescendant : Bool)
    (field : Nat) (keyboardHeight keyboardTopY : Int) (rect : Rect) :
    (isDescendantCallback cl isDescendant).filter Effect.isScrollCommand = [] ∧
      fieldMeasuredCallback os props m field keyboardHeight keyboardTopY rect = [] := by
  constructor
  · cases isDescendant <;>
      simp [isDescendantCallback, adjustScrollToField, Effect.isScrollCommand]
  · cases hm : m.ref with
    | undefined =>
      simp [fieldMeasuredCallback, adjustScrollIos, adjustScrollAndroid, findNodeHandle, hm,
        tagTruthy]
    | null =>
      simp [fieldMeasuredCallback, adjustScrollIos, adjustScrollAndroid, findNodeHandle, hm,
        tagTruthy]
    | value c => simp [hm, Nullable.truthy] at href

/-! ## Claims -/

/-- C1: from any state whose keyboardHeight is 0 (whatever the container
reference and the cached geometry are), after any sequence of show, hide and
scroll notifications (with any focused field at each show) the keyboardHeight
is the height of the last show event if the last keyboard event is a show and 0
if it is a hide or there is none; a scroll notification never changes
keyboardHeight. -/
theorem C1_keyboardHeight_tracks_last_keyboard_event (m : Manager)
    (h0 : m.keyboardHeight = 0) (ns : List Notification) :
    (ns.foldl notify m).keyboardHeight = expectedKeyboardHeight ns ∧
      ∀ (s : Manager) (nativeEvent : NativeScrollEvent),
        (notify s (.scroll nativeEvent)).keyboardHeight = s.keyboardHeight := by
  refine ⟨?_, fun s ev => rfl⟩
  rw [foldl_notify_keyboardHeight, expectedKeyboardHeight, h0]
  split <;> simp_all

theorem C1_witness :
    Manager.initial.keyboardHeight = 0 ∧
    ([Notification.scroll ⟨.undefined, .undefined, .undefined⟩,
      .keyboardShow .null ⟨⟨250, 500⟩⟩,
      .keyboardHide,
      .keyboardShow (.value 7) ⟨⟨300, 400⟩⟩,
      .scroll ⟨.value ⟨320, 480⟩, .value ⟨0, 10⟩, .value ⟨320, 900⟩⟩].foldl notify
        Manager.initial).keyboardHeight = 300 :=
  ⟨rfl, (C1_keyboardHeight_tracks_last_keyboard_event Manager.initial rfl _).1⟩

/-- C7: the scroll-view style handed to the render delegate is exactly
(marginBottom = keyboardHeight) when the platform is Android and the soft input
mode is adjustPan or adjustNothing, and undefined for every other mode string
and every other platform; e.g. Android, adjustPan, height 150 gives margin 150
and adjustResize gives no style. -/
theorem C7_android_margin_style (os : String) (props : Props) (m : Manager) :
    (render os props m).scrollViewStyle =
        (if os = "android" ∧
            (props.androidSoftInputMode = "adjustPan" ∨
              props.androidSoftInputMode = "adjustNothing")
          then Nullable.value { marginBottom := m.keyboardHeight }
          else Nullable.undefined) ∧
      (render "android" { defaultProps with androidSoftInputMode := "adjustPan" }
          { Manager.initial with keyboardHeight := 150 }).scrollViewStyle =
        Nullable.value { marginBottom := 150 } ∧
      (render "android" defaultProps
          { Manager.initial with keyboardHeight := 150 }).scrollViewStyle =
        Nullable.undefined := by
  refine ⟨?_, by decide, by decide⟩
  simp only [render, androidStyle, IS_ANDROID, ANDROID_SOFT_INPUT_MODES.adjustNothing,
    ANDROID_SOFT_INPUT_MODES.adjustPan, beq_iff_eq, Bool.or_eq_true]
  by_cases hos : os = "android"
  · by_cases hmode : props.androidSoftInputMode = "adjustNothing" ∨
        props.androidSoftInputMode = "adjustPan"
    · rw [if_pos hos, if_pos hmode, if_pos ⟨hos, hmode.symm⟩]
    · rw [if_pos hos, if_neg hmode, if_neg (fun h => hmode h.2.symm)]
  · rw [if_neg hos, if_neg (fun h => hos h.1)]

/-- C8: mounting issues exactly two addListener calls, onKeyboardShow on the
show channel and onKeyboardHide on the hide channel of the platform
(keyboardWillShow/keyboardWillHide on iOS, keyboardDidShow/keyboardDidHide
otherwise), and keeps the two subscriptions; teardown after mounting, whatever
notifications arrived in between, removes each of the two subscriptions once and
leaves both handles null; teardown in a state that holds no subscription (a
fresh component, or after a teardown) removes nothing and leaves both handles
null. -/
theorem C8_subscription_lifecycle (os : String) (showSubscription hideSubscription : Subscription)
    (m : Manager) (ns : List Notification) :
    (componentDidMount os showSubscription hideSubscription m).2 =
        [.addListener (if os = "ios" then "keyboardWillShow" else "keyboardDidShow")
           .onKeyboardShow,
         .addListener (if os = "ios" then "keyboardWillHide" else "keyboardDidHide")
           .onKeyboardHide] ∧
      (componentDidMount os showSubscription hideSubscription m).1.showListener =
        .value showSubscription ∧
      (componentDidMount os showSubscription hideSubscription m).1.hideListener =
        .value hideSubscription ∧
      (componentWillUnmount
          (ns.foldl notify (componentDidMount os showSubscription hideSubscription m).1)).2 =
        [.remove showSubscription, .remove hideSubscription] ∧
      (componentWillUnmount m).1.showListener = .null ∧
      (componentWillUnmount m).1.hideListener = .null ∧
      (componentWillUnmount (ns.foldl notify Manager.initial)).2 = [] ∧
      (componentWillUnmount (ns.foldl notify (componentWillUnmount m).1)).2 = [] := by
  refine ⟨?_, rfl, rfl, ?_, rfl, rfl, ?_, ?_⟩
  · simp [componentDidMount, IS_IOS]
  · simp [componentWillUnmount, (foldl_notify_listeners ns _).1,
      (foldl_notify_listeners ns _).2, componentDidMount, removeIfHeld]
  · simp [componentWillUnmount, (foldl_notify_listeners ns _).1,
      (foldl_notify_listeners ns _).2, Manager.initial, removeIfHeld]
  · simp [componentWillUnmount, (foldl_notify_listeners ns _).1,
      (foldl_notify_listeners ns _).2, removeIfHeld]

/-- C9: on every platform and for every configuration and state, the object
handed to the render delegate has contentInset.bottom equal to the current
keyboardHeight, scrollEventThrottle 100 and automaticallyAdjustContentInsets
false. -/
theorem C9_render_output (os : String) (props : Props) (m : Manager) :
    (render os props m).contentInset.bottom = m.keyboardHeight ∧
      (render os props m).scrollEventThrottle = 100 ∧
      (render os props m).automaticallyAdjustContentInsets = false :=
  ⟨rfl, rfl, rfl⟩


/-- C3: on every platform, a show event issues a scroll command only if a field
is focused, the container, its responder and its inner view node exist, and the
containment check reports that the field is a descendant; when no field has
focus, or no container exists, or it has no inner view node, nothing at all is
requested (with any fuel); when the check reports "not a descendant" the
containment check is the only effect: no measurement is requested and no scroll
command is issued; and the run of every show event completes. -/
theorem C3_show_requires_focus_container_and_containment (os : String) (props : Props)
    (host : Host) (n : Nat) (focusedField : Nullable Nat) (frames : Frames) (m : Manager) :
    (∃ log, (keyboardShow os props host (n + 4) focusedField frames m).2 = .ok log) ∧
    (scrollCommands (keyboardShow os props host (n + 4) focusedField frames m).2 ≠ [] →
        ∃ field c r inner, focusedField = .value field ∧ field ≠ 0 ∧ m.ref = .value c ∧
          c.scrollResponder = .value r ∧ r.innerViewNode = .value inner ∧ inner ≠ 0 ∧
          host.viewIsDescendantOf field inner = true) ∧
      ((tagTruthy focusedField = false ∨ m.ref.truthy = false ∨
          tagTruthy (getInnerViewNode m) = false) →
        ∀ fuel, (keyboardShow os props host fuel focusedField frames m).2 = .ok []) ∧
      (∀ field inner, focusedField = .value field → field ≠ 0 →
        getInnerViewNode m = .value inner → inner ≠ 0 →
        host.viewIsDescendantOf field inner = false →
        (keyboardShow os props host (n + 4) focusedField frames m).2 =
          .ok [.viewIsDescendantOf field inner
                { focusedField := field, keyboardHeight := frames.endCoordinates.height,
                  keyboardTopY := frames.endCoordinates.screenY }]) := by
  have key : ∀ field inner c r, field ≠ 0 → m.ref = .value c →
      c.scrollResponder = .value r → r.innerViewNode = .value inner → inner ≠ 0 →
      host.viewIsDescendantOf field inner = false →
      (keyboardShow os props host (n + 4) (.value field) frames m).2 =
        .ok [.viewIsDescendantOf field inner
              { focusedField := field, keyboardHeight := frames.endCoordinates.height,
                keyboardTopY := frames.endCoordinates.screenY }] := by
    intro field inner c r hfield href hresp hinner hinner0 hdesc
    cases htag : tagTruthy c.nodeHandle with
    | false =>
      rw [keyboardShow_log_of_pass_no_tag os props host n frames m field inner c r hfield href
        hresp hinner hinner0 htag]
      simp [hdesc]
    | true =>
      obtain ⟨node, hnode, hnode0⟩ := (tagTruthy_iff _).1 htag
      rw [keyboardShow_log_of_pass os props host n frames m field inner node c r hfield href
        hresp hinner hinner0 hnode hnode0]
      simp [hdesc]
  refine ⟨keyboardShow_completes os props host n focusedField frames m, ?_, ?_, ?_⟩
  · intro hcmd
    rcases onKeyboardShow_effects_cases focusedField frames m with ⟨hguard, _⟩ |
      ⟨field, inner, hfocus, hfield, hin, hinner0, _⟩
    · rw [keyboardShow_log_of_guard os props host (n + 4) focusedField frames m hguard] at hcmd
      exact absurd rfl hcmd
    · obtain ⟨c, r, href, hresp, hinner⟩ := (getInnerViewNode_eq_value m inner).1 hin
      refine ⟨field, c, r, inner, hfocus, hfield, href, hresp, hinner, hinner0, ?_⟩
      cases hdesc : host.viewIsDescendantOf field inner with
      | true => rfl
      | false =>
        rw [hfocus, key field inner c r hfield href hresp hinner hinner0 hdesc] at hcmd
        exact absurd rfl hcmd
  · intro h fuel
    apply keyboardShow_log_of_guard
    rcases h with h | h | h
    · exact Or.inl h
    · exact Or.inr (getInnerViewNode_of_no_ref m h)
    · exact Or.inr h
  · intro field inner hfocus hfield hin hinner0 hdesc
    obtain ⟨c, r, href, hresp, hinner⟩ := (getInnerViewNode_eq_value m inner).1 hin
    rw [hfocus]
    exact key field inner c r hfield href hresp hinner hinner0 hdesc

theorem C3_witness :
    (keyboardShow "ios" defaultProps
        ⟨fun _ _ => false, fun _ => ⟨0, 700, 320, 40⟩⟩ 9 (.value 7) ⟨⟨300, 400⟩⟩
        (storeRef (.value ⟨.value 10, .value ⟨.value 11⟩⟩) Manager.initial)).2 =
        .ok [.viewIsDescendantOf 7 11 ⟨7, 300, 400⟩] ∧
      (keyboardShow "android" defaultProps
        ⟨fun _ _ => true, fun _ => ⟨0, 700, 320, 40⟩⟩ 0 .null ⟨⟨300, 400⟩⟩
        (storeRef (.value ⟨.value 10, .value ⟨.value 11⟩⟩) Manager.initial)).2 = .ok [] :=
  ⟨(C3_show_requires_focus_container_and_containment "ios" defaultProps
      ⟨fun _ _ => false, fun _ => ⟨0, 700, 320, 40⟩⟩ 5 (.value 7) ⟨⟨300, 400⟩⟩
      (storeRef (.value ⟨.value 10, .value ⟨.value 11⟩⟩) Manager.initial)).2.2.2
      7 11 rfl (by decide) rfl (by decide) rfl,
   (C3_show_requires_focus_container_and_containment "android" defaultProps
      ⟨fun _ _ => true, fun _ => ⟨0, 700, 320, 40⟩⟩ 0 .null ⟨⟨300, 400⟩⟩
      (storeRef (.value ⟨.value 10, .value ⟨.value 11⟩⟩) Manager.initial)).2.2.1
      (Or.inl rfl) 0⟩

/-- C5 (evaluation at the failing inputs): with the container reference cleared
and an over-scrolled geometry cached, the setState callback of the hide handler
on iOS throws a TypeError (line 105 reads scrollToEnd from the missing
reference); and the container-measurement callback of the iOS show path, run
after the reference was cleared, still issues its scroll command on the
responder it captured. -/
theorem C5_callbacks_after_container_cleared :
    hideStateCallback "ios"
        (storeRef .null
          (onScroll ⟨.value ⟨320, 500⟩, .value ⟨0, 450⟩, .value ⟨320, 900⟩⟩
            (storeRef (.value ⟨.value 10, .value ⟨.value 11⟩⟩) Manager.initial))) =
        .error .typeError ∧
      deliver "ios" defaultProps ⟨fun _ _ => true, fun _ => ⟨0, 64, 320, 504⟩⟩
          (storeRef .null (storeRef (.value ⟨.value 10, .value ⟨.value 11⟩⟩) Manager.initial))
          (.measureInWindow 10 (.scrollViewMeasured ⟨.value 11⟩ 7 20)) =
        .ok [.scrollResponderScrollNativeHandleToKeyboard ⟨.value 11⟩ 7 84 true] :=
  ⟨rfl, rfl⟩

/-- C10: on Android every show event, for every focused field, every answer of
the containment check and every measured position, completes without any scroll
command and changes nothing but keyboardHeight; the Android sub-algorithm
returns without any effect; and every hide event, for every cached geometry,
runs its callback without any scroll command and changes nothing but
keyboardHeight, which becomes 0. -/
theorem C10_android_issues_no_scroll_command (props : Props) (host : Host) (n : Nat)
    (focusedField : Nullable Nat) (frames : Frames) (m : Manager) :
    (keyboardShow "android" props host (n + 4) focusedField frames m).1 =
        { m with keyboardHeight := frames.endCoordinates.height } ∧
      (∃ log, (keyboardShow "android" props host (n + 4) focusedField frames m).2 = .ok log ∧
        log.filter Effect.isScrollCommand = []) ∧
      (∀ fieldBottomY keyboardTopY keyboardHeight : Int,
        adjustScrollAndroid fieldBottomY keyboardTopY keyboardHeight = []) ∧
      keyboardHide "android" props host (n + 1) m =
        ({ m with keyboardHeight := 0 }, .ok [.setStateCallback]) := by
  refine ⟨?_, keyboardShow_no_scroll_of_not_ios "android" IS_IOS_android props host n
    focusedField frames m, fun _ _ _ => rfl, ?_⟩
  · simp [keyboardShow, onKeyboardShow_state]
  · simp [keyboardHide, onKeyboardHide, eventLoop_cons, eventLoop_nil, deliver,
      hideStateCallback, IS_IOS_android]

end ScrollViewKeyboardManager
